import Mathlib

/-!
# Remote cluster registry (`server/channels/app/remote_cluster.go`)

A shallow embedding of the registry facade of the shared-channels feature and
the properties of it that the specification states.

Conventions of the embedding.

* A Go result `(*T, error)` is the pair `Option T × Option Error`: each half is
  `none` when the Go value is `nil`. Both halves are kept, because the source
  tests `err != nil` and `rc != nil` separately.
* The store behind `a.Srv().Store().RemoteCluster()` is stateful: every store
  method takes the store state and returns the state after the call.
* Records are values. A store method does not write through the pointer it is
  handed, it reports what it did in its result and in the state.
* A function that dereferences a pointer returns `none` in its first component
  when that pointer is `nil` (the Go run-time panic).
* By Go's convention a call that fails returns no record and a call that
  returns a record returns no error; the source does not rely on it, and each
  theorem states the halves of the result it assumes.
-/

namespace RemoteClusterApp

/-! ## Errors -/

/-- Go error values produced by the store: the sentinel `sql.ErrNoRows`, a
plain error made with `errors.New`, or an error wrapped with a message by
`errors.Wrap`. -/
inductive Error where
  | ErrNoRows : Error
  | New (msg : String) : Error
  | Wrap (cause : Error) (msg : String) : Error
  deriving DecidableEq, Repr

/-- The test `errors.Is(err, sql.ErrNoRows)`: the sentinel is looked for along
the chain of wrapped errors. -/
def errorsIsErrNoRows : Error → Bool
  | .ErrNoRows => true
  | .New _ => false
  | .Wrap cause _ => errorsIsErrNoRows cause

/-- The function `errors.Cause`: the innermost error of a chain of wraps. -/
def errorsCause : Error → Error
  | .ErrNoRows => .ErrNoRows
  | .New msg => .New msg
  | .Wrap cause _ => errorsCause cause

/-- The constant `http.StatusInternalServerError`. -/
def StatusInternalServerError : Nat := 500

/-- The constant `http.StatusNotImplemented`. -/
def StatusNotImplemented : Nat := 501

/-- Modelled from the spec: the type `model.AppError` is declared outside the
source at hand. A structured failure carries the name of the operation, a
machine-readable identifier, a detail text, an HTTP status and the wrapped
store error, if any. -/
structure AppError where
  Where : String
  Id : String
  DetailedError : String
  StatusCode : Nat
  wrapped : Option Error
  deriving DecidableEq, Repr

/-- Modelled from the spec: the constructor `model.NewAppError(where, id, nil,
details, status)`, declared outside the source at hand; it wraps nothing. -/
def NewAppError (loc id details : String) (status : Nat) : AppError :=
  { Where := loc, Id := id, DetailedError := details, StatusCode := status, wrapped := none }

/-- The method `(*AppError).Wrap(err)`: the same failure, now wrapping `err`. -/
def AppError.Wrap (e : AppError) (err : Error) : AppError :=
  { e with wrapped := some err }

/-- A value of Go's interface type `error` as `UnregisterPluginForSharedChannels`
returns it: a raw store error or a structured failure. -/
inductive GoError where
  | raw (e : Error) : GoError
  | app (e : AppError) : GoError
  deriving DecidableEq, Repr

/-! ## Data model -/

/-- Modelled from the spec: the type `model.RemoteCluster` is declared outside
the source at hand; these are the attributes the specification lists for it.
`Options` is a bit mask. -/
structure RemoteCluster where
  RemoteId : String
  Name : String
  DisplayName : String
  SiteURL : String
  Token : String
  CreatorId : String
  PluginID : String
  Options : Nat
  Topics : String
  LastPingAt : Int
  deriving DecidableEq, Repr

/-- The zero value `model.RemoteCluster{}`. -/
def RemoteCluster.zero : RemoteCluster :=
  { RemoteId := "", Name := "", DisplayName := "", SiteURL := "", Token := "",
    CreatorId := "", PluginID := "", Options := 0, Topics := "", LastPingAt := 0 }

/-- Modelled from the spec: the type `model.RegisterPluginOpts` is declared
outside the source at hand. It holds a display name, a plugin identifier, a
creator identifier and a set of feature flags (kept as a number here, read
only by `GetOptionFlags`). -/
structure RegisterPluginOpts where
  Displayname : String
  PluginID : String
  CreatorID : String
  FeatureFlags : Nat
  deriving DecidableEq, Repr

/-! ## The store and the server behind the application -/

/-- The methods of the store interface `Store().RemoteCluster()` that the
registry calls, over a store state `σ`. -/
structure RemoteClusterStore (σ : Type) where
  Save : RemoteCluster → σ → (Option RemoteCluster × Option Error) × σ
  Update : RemoteCluster → σ → (Option RemoteCluster × Option Error) × σ
  Delete : String → σ → (Bool × Option Error) × σ
  Get : String → σ → (Option RemoteCluster × Option Error) × σ
  GetByPluginID : String → σ → (Option RemoteCluster × Option Error) × σ
  UpdateTopics : String → String → σ → (Option RemoteCluster × Option Error) × σ
  SetLastPingAt : String → σ → Option Error × σ

/-- What the receiver `a *App` gives access to. The parts that are declared
outside the source at hand are parameters: the store, the identifier generator
`model.NewId`, the method `opts.GetOptionFlags`, the classifier
`sqlstore.IsUniqueConstraintError`, the constant
`sqlstore.RemoteClusterSiteURLUniqueIndex` and the service handle (of a type
`H`) that `a.Srv().GetRemoteClusterService()` returns, `none` for `nil`. -/
structure App (σ : Type) (H : Type) where
  Store : RemoteClusterStore σ
  NewId : σ → String × σ
  GetOptionFlags : RegisterPluginOpts → Nat
  IsUniqueConstraintError : Error → List String → Bool
  RemoteClusterSiteURLUniqueIndex : String
  GetRemoteClusterService : σ → Option H

/-! ## The operations of `remote_cluster.go` -/

section Operations

variable {σ H : Type}

/-- The function `RegisterPluginForSharedChannels`. The result is `none` when
the store's `Save` returns neither a record nor an error, where the source
dereferences a nil pointer. -/
def RegisterPluginForSharedChannels (a : App σ H) (opts : RegisterPluginOpts) (s : σ) :
    Option (String × Option Error) × σ :=
  -- check for pluginID already registered
  let ((rc, err), s1) := a.Store.GetByPluginID opts.PluginID s
  -- anything other than not_found is unrecoverable
  if (match err with
      | some e => !errorsIsErrNoRows e
      | none => false) then (some ("", err), s1)
  else
    match rc with
    | some rc =>
      -- if plugin is already registered then treat this as an update.
      let rc := { rc with DisplayName := opts.Displayname, Options := a.GetOptionFlags opts }
      let ((_, err), s2) := a.Store.Update rc s1
      match err with
      | some e => (some ("", some e), s2)
      | none => (some (rc.RemoteId, none), s2)
    | none =>
      let (token, s2) := a.NewId s1
      let rc := { RemoteCluster.zero with
        Name := opts.Displayname,
        DisplayName := opts.Displayname,
        Token := token,
        CreatorId := opts.CreatorID,
        PluginID := opts.PluginID,
        Options := a.GetOptionFlags opts }
      let ((rcSaved, err), s3) := a.Store.Save rc s2
      match err with
      | some e => (some ("", some e), s3)
      | none =>
        match rcSaved with
        | some rcSaved => (some (rcSaved.RemoteId, none), s3)
        | none => (none, s3)

/-- The function `DeleteRemoteCluster`. -/
def DeleteRemoteCluster (a : App σ H) (remoteClusterId : String) (s : σ) :
    (Bool × Option AppError) × σ :=
  let ((deleted, err), s1) := a.Store.Delete remoteClusterId s
  match err with
  | some e =>
    ((false, some ((NewAppError "DeleteRemoteCluster" "api.remote_cluster.delete.app_error" ""
      StatusInternalServerError).Wrap e)), s1)
  | none => ((deleted, none), s1)

/-- The function `UnregisterPluginForSharedChannels`. The result is `none`
when the lookup returns neither a record nor an error, where the source
dereferences a nil pointer. -/
def UnregisterPluginForSharedChannels (a : App σ H) (pluginID : String) (s : σ) :
    Option (Option GoError) × σ :=
  let ((rc, err), s1) := a.Store.GetByPluginID pluginID s
  match err with
  | some e => (some (some (.raw e)), s1)
  | none =>
    match rc with
    | none => (none, s1)
    | some rc =>
      let ((_, appErr), s2) := DeleteRemoteCluster a rc.RemoteId s1
      match appErr with
      | some e => (some (some (.app e)), s2)
      | none => (some none, s2)

/-- The function `AddRemoteCluster`. -/
def AddRemoteCluster (a : App σ H) (rc : RemoteCluster) (s : σ) :
    (Option RemoteCluster × Option AppError) × σ :=
  let ((rc, err), s1) := a.Store.Save rc s
  match err with
  | some e =>
    if a.IsUniqueConstraintError (errorsCause e) [a.RemoteClusterSiteURLUniqueIndex] then
      ((none, some ((NewAppError "AddRemoteCluster" "api.remote_cluster.save_not_unique.app_error" ""
        StatusInternalServerError).Wrap e)), s1)
    else
      ((none, some ((NewAppError "AddRemoteCluster" "api.remote_cluster.save.app_error" ""
        StatusInternalServerError).Wrap e)), s1)
  | none => ((rc, none), s1)

/-- The function `UpdateRemoteCluster`. -/
def UpdateRemoteCluster (a : App σ H) (rc : RemoteCluster) (s : σ) :
    (Option RemoteCluster × Option AppError) × σ :=
  let ((rc, err), s1) := a.Store.Update rc s
  match err with
  | some e =>
    if a.IsUniqueConstraintError (errorsCause e) [a.RemoteClusterSiteURLUniqueIndex] then
      ((none, some ((NewAppError "UpdateRemoteCluster" "api.remote_cluster.update_not_unique.app_error" ""
        StatusInternalServerError).Wrap e)), s1)
    else
      ((none, some ((NewAppError "UpdateRemoteCluster" "api.remote_cluster.update.app_error" ""
        StatusInternalServerError).Wrap e)), s1)
  | none => ((rc, none), s1)

/-- The function `GetRemoteCluster`. -/
def GetRemoteCluster (a : App σ H) (remoteClusterId : String) (s : σ) :
    (Option RemoteCluster × Option AppError) × σ :=
  let ((rc, err), s1) := a.Store.Get remoteClusterId s
  match err with
  | some e =>
    ((none, some ((NewAppError "GetRemoteCluster" "api.remote_cluster.get.app_error" ""
      StatusInternalServerError).Wrap e)), s1)
  | none => ((rc, none), s1)

/-- The function `UpdateRemoteClusterTopics`. -/
def UpdateRemoteClusterTopics (a : App σ H) (remoteClusterId topics : String) (s : σ) :
    (Option RemoteCluster × Option AppError) × σ :=
  let ((rc, err), s1) := a.Store.UpdateTopics remoteClusterId topics s
  match err with
  | some e =>
    ((none, some ((NewAppError "UpdateRemoteClusterTopics" "api.remote_cluster.save.app_error" ""
      StatusInternalServerError).Wrap e)), s1)
  | none => ((rc, none), s1)

/-- The function `SetRemoteClusterLastPingAt`. -/
def SetRemoteClusterLastPingAt (a : App σ H) (remoteClusterId : String) (s : σ) :
    Option AppError × σ :=
  let (err, s1) := a.Store.SetLastPingAt remoteClusterId s
  match err with
  | some e =>
    (some ((NewAppError "SetRemoteClusterLastPingAt" "api.remote_cluster.save.app_error" ""
      StatusInternalServerError).Wrap e), s1)
  | none => (none, s1)

/-- The function `GetRemoteClusterService`. -/
def GetRemoteClusterService (a : App σ H) (s : σ) : Option H × Option AppError :=
  let service := a.GetRemoteClusterService s
  match service with
  | none =>
    (none, some (NewAppError "GetRemoteClusterService"
      "api.remote_cluster.service_not_enabled.app_error" "" StatusNotImplemented))
  | some service => (some service, none)

end Operations

/-! ## Observing the store calls an operation makes -/

/-- A call of a store method, with its arguments. -/
inductive Call where
  | Save (rc : RemoteCluster) : Call
  | Update (rc : RemoteCluster) : Call
  | Delete (remoteClusterId : String) : Call
  | Get (remoteClusterId : String) : Call
  | GetByPluginID (pluginID : String) : Call
  | UpdateTopics (remoteClusterId topics : String) : Call
  | SetLastPingAt (remoteClusterId : String) : Call
  deriving DecidableEq, Repr

/-- The same store, which also appends every call it receives to a log kept
next to the store state. -/
def RemoteClusterStore.traced {σ : Type} (S : RemoteClusterStore σ) :
    RemoteClusterStore (σ × List Call) where
  Save rc t := ((S.Save rc t.1).1, ((S.Save rc t.1).2, t.2 ++ [Call.Save rc]))
  Update rc t := ((S.Update rc t.1).1, ((S.Update rc t.1).2, t.2 ++ [Call.Update rc]))
  Delete id t := ((S.Delete id t.1).1, ((S.Delete id t.1).2, t.2 ++ [Call.Delete id]))
  Get id t := ((S.Get id t.1).1, ((S.Get id t.1).2, t.2 ++ [Call.Get id]))
  GetByPluginID p t :=
    ((S.GetByPluginID p t.1).1, ((S.GetByPluginID p t.1).2, t.2 ++ [Call.GetByPluginID p]))
  UpdateTopics id topics t :=
    ((S.UpdateTopics id topics t.1).1,
      ((S.UpdateTopics id topics t.1).2, t.2 ++ [Call.UpdateTopics id topics]))
  SetLastPingAt id t :=
    ((S.SetLastPingAt id t.1).1, ((S.SetLastPingAt id t.1).2, t.2 ++ [Call.SetLastPingAt id]))

/-- The same application over the logging store. -/
def App.traced {σ H : Type} (a : App σ H) : App (σ × List Call) H where
  Store := a.Store.traced
  NewId t := ((a.NewId t.1).1, ((a.NewId t.1).2, t.2))
  GetOptionFlags := a.GetOptionFlags
  IsUniqueConstraintError := a.IsUniqueConstraintError
  RemoteClusterSiteURLUniqueIndex := a.RemoteClusterSiteURLUniqueIndex
  GetRemoteClusterService t := a.GetRemoteClusterService t.1

/-! ## The store contract -/

/-- The records of `l`, the ones with the `RemoteId` of `rc` replaced by `rc`. -/
def replaceById (rc : RemoteCluster) (l : List RemoteCluster) : List RemoteCluster :=
  l.map (fun x => if x.RemoteId = rc.RemoteId then rc else x)

/-- The records of `l` without the ones whose `RemoteId` is `id`. -/
def removeById (id : String) (l : List RemoteCluster) : List RemoteCluster :=
  l.filter (fun x => decide (x.RemoteId ≠ id))

/-- The contract the registry requires of its collaborators, in terms of the
list `recs s` of the records the store holds in state `s`.

* `GetByPluginID` does not change the records; it returns a record of the
  store carrying that plugin identifier, or it reports not-found, and then no
  record carries it.
* A `Save` that reports no error returns the record it inserted: the record
  it was given, under a `RemoteId` that no record of the store has.
* An `Update` that reports no error replaces the record with the same `RemoteId`.
* A `Delete` that reports no error removes the record with that `RemoteId` and tells
  whether there was one.
* `Get` does not change the records and a record it returns is a record of the
  store with that `RemoteId`.
* `UpdateTopics` and `SetLastPingAt`, when they report no error, change that one
  attribute of the record with that `RemoteId`.
* Generating an identifier does not touch the records. -/
structure StoreContract {σ H : Type} (a : App σ H) (recs : σ → List RemoteCluster) : Prop where
  newId : ∀ s, recs (a.NewId s).2 = recs s
  lookup_pure : ∀ p s, recs (a.Store.GetByPluginID p s).2 = recs s
  lookup : ∀ p s,
    (∃ rc, (a.Store.GetByPluginID p s).1 = (some rc, none) ∧ rc ∈ recs s ∧ rc.PluginID = p) ∨
    (∃ e, (a.Store.GetByPluginID p s).1 = (none, some e) ∧ errorsIsErrNoRows e = true ∧
      ∀ rc ∈ recs s, rc.PluginID ≠ p)
  save : ∀ rc s, (a.Store.Save rc s).1.2 = none →
    ∃ saved, (a.Store.Save rc s).1.1 = some saved ∧
      saved = { rc with RemoteId := saved.RemoteId } ∧
      (∀ x ∈ recs s, x.RemoteId ≠ saved.RemoteId) ∧
      recs (a.Store.Save rc s).2 = recs s ++ [saved]
  update : ∀ rc s, (a.Store.Update rc s).1.2 = none →
    recs (a.Store.Update rc s).2 = replaceById rc (recs s)
  delete : ∀ id s, (a.Store.Delete id s).1.2 = none →
    recs (a.Store.Delete id s).2 = removeById id (recs s) ∧
    (a.Store.Delete id s).1.1 = (recs s).any (fun x => decide (x.RemoteId = id))
  get_pure : ∀ id s, recs (a.Store.Get id s).2 = recs s
  get : ∀ id s got, (a.Store.Get id s).1.1 = some got → got ∈ recs s ∧ got.RemoteId = id
  updateTopics : ∀ id topics s, (a.Store.UpdateTopics id topics s).1.2 = none →
    recs (a.Store.UpdateTopics id topics s).2 =
      (recs s).map (fun x => if x.RemoteId = id then { x with Topics := topics } else x)
  setLastPingAt : ∀ id s, (a.Store.SetLastPingAt id s).1 = none →
    ∃ t : Int, recs (a.Store.SetLastPingAt id s).2 =
      (recs s).map (fun x => if x.RemoteId = id then { x with LastPingAt := t } else x)

/-- The store's `Get` finds the records of the store: when a record of the
store has that `RemoteId`, `Get` returns a record and no error. -/
def GetFindsRecords {σ H : Type} (a : App σ H) (recs : σ → List RemoteCluster) : Prop :=
  ∀ id s, (∃ r ∈ recs s, r.RemoteId = id) → ∃ got, (a.Store.Get id s).1 = (some got, none)

/-- `RemoteId` is a key: no two records of `l` have the same `RemoteId`. -/
def UniqueRemoteIds (l : List RemoteCluster) : Prop :=
  (l.map (fun x => x.RemoteId)).Nodup

/-- No two records of `l` share a non-empty `PluginID`. -/
def NoSharedPluginID (l : List RemoteCluster) : Prop :=
  l.Pairwise (fun x y => x.PluginID = "" ∨ x.PluginID ≠ y.PluginID)

/-- The number of records of `l` whose `PluginID` is `p`. -/
def pluginCount (p : String) (l : List RemoteCluster) : Nat :=
  (l.map (fun x => x.PluginID)).count p

instance (l : List RemoteCluster) : Decidable (UniqueRemoteIds l) := by
  unfold UniqueRemoteIds; infer_instance

instance (l : List RemoteCluster) : Decidable (NoSharedPluginID l) := by
  unfold NoSharedPluginID; infer_instance

/-! ## The registry operations as one family -/

/-- A call of one of the registry operations that change the store. -/
inductive RegistryOp where
  | Register (opts : RegisterPluginOpts) : RegistryOp
  | Unregister (pluginID : String) : RegistryOp
  | Add (rc : RemoteCluster) : RegistryOp
  | Update (rc : RemoteCluster) : RegistryOp
  | Delete (remoteClusterId : String) : RegistryOp
  | UpdateTopics (remoteClusterId topics : String) : RegistryOp
  | SetLastPingAt (remoteClusterId : String) : RegistryOp
  deriving DecidableEq, Repr

/-- Runs a registry operation: whether it succeeded (it returned, and returned
no error), and the store state it leaves. -/
def RegistryOp.run {σ H : Type} (a : App σ H) : RegistryOp → σ → Bool × σ
  | .Register opts, s =>
    let (r, s1) := RegisterPluginForSharedChannels a opts s
    (match r with
     | some (_, none) => true
     | _ => false, s1)
  | .Unregister pluginID, s =>
    let (r, s1) := UnregisterPluginForSharedChannels a pluginID s
    (match r with
     | some none => true
     | _ => false, s1)
  | .Add rc, s =>
    let (r, s1) := AddRemoteCluster a rc s
    (r.2.isNone, s1)
  | .Update rc, s =>
    let (r, s1) := UpdateRemoteCluster a rc s
    (r.2.isNone, s1)
  | .Delete id, s =>
    let (r, s1) := DeleteRemoteCluster a id s
    (r.2.isNone, s1)
  | .UpdateTopics id topics, s =>
    let (r, s1) := UpdateRemoteClusterTopics a id topics s
    (r.2.isNone, s1)
  | .SetLastPingAt id, s =>
    let (r, s1) := SetRemoteClusterLastPingAt a id s
    (r.isNone, s1)

/-- The direct create and update take the `PluginID` of the record as it comes:
`op` keeps plugin identifiers apart on the records `l` when it is not one of
these two, or when the record it passes has an empty `PluginID` or one that no
other record of `l` carries. -/
def RegistryOp.keepsPluginIDsApart (l : List RemoteCluster) : RegistryOp → Prop
  | .Add rc => rc.PluginID = "" ∨ ∀ x ∈ l, x.PluginID ≠ rc.PluginID
  | .Update rc => rc.PluginID = "" ∨ ∀ x ∈ l, x.PluginID = rc.PluginID → x.RemoteId = rc.RemoteId
  | _ => True

/-! ## A store in memory -/

/-- The state of the in-memory store: its records, the number of identifiers
generated so far and a clock. -/
structure MemState where
  records : List RemoteCluster
  issued : Nat
  now : Int
  deriving DecidableEq, Repr

/-- A `RemoteId` that no record of `l` has: it is longer than all of them. -/
def memFreshId (l : List RemoteCluster) : String :=
  String.mk (List.replicate ((l.map (fun x => x.RemoteId.length)).foldr max 0 + 1) 'r')

/-- The error of the in-memory store for a second record with a `SiteURL`. -/
def memDuplicateSiteURL : Error :=
  .Wrap (.New "duplicate key value violates unique constraint remote_clusters_site_url_unique")
    "failed to save RemoteCluster"

/-- The error of the in-memory store for a row that is not there. -/
def memNotFound : Error := .Wrap .ErrNoRows "failed to find RemoteCluster"

/-- A store in memory that satisfies the store contract and enforces uniqueness
on `SiteURL` only. -/
def memStore : RemoteClusterStore MemState where
  Save rc s :=
    if s.records.any (fun x => decide (x.SiteURL = rc.SiteURL)) then
      ((none, some memDuplicateSiteURL), s)
    else
      ((some { rc with RemoteId := memFreshId s.records }, none),
        { s with records := s.records ++ [{ rc with RemoteId := memFreshId s.records }] })
  Update rc s :=
    if s.records.any (fun x => decide (x.RemoteId ≠ rc.RemoteId ∧ x.SiteURL = rc.SiteURL)) then
      ((none, some memDuplicateSiteURL), s)
    else
      ((some rc, none), { s with records := replaceById rc s.records })
  Delete id s :=
    ((s.records.any (fun x => decide (x.RemoteId = id)), none),
      { s with records := removeById id s.records })
  Get id s :=
    match s.records.find? (fun x => decide (x.RemoteId = id)) with
    | some rc => ((some rc, none), s)
    | none => ((none, some memNotFound), s)
  GetByPluginID p s :=
    match s.records.find? (fun x => decide (x.PluginID = p)) with
    | some rc => ((some rc, none), s)
    | none => ((none, some memNotFound), s)
  UpdateTopics id topics s :=
    match s.records.find? (fun x => decide (x.RemoteId = id)) with
    | some rc =>
      ((some { rc with Topics := topics }, none),
        { s with records :=
            s.records.map (fun x => if x.RemoteId = id then { x with Topics := topics } else x) })
    | none => ((none, some memNotFound), s)
  SetLastPingAt id s :=
    (none, { s with
      records := s.records.map (fun x => if x.RemoteId = id then { x with LastPingAt := s.now } else x),
      now := s.now + 1 })

/-- An application over the in-memory store; `service` is the handle of the
synchronization service, if it has been started. -/
def memApp (service : Option String) : App MemState String where
  Store := memStore
  NewId s := (String.mk (List.replicate (s.issued + 1) 't'), { s with issued := s.issued + 1 })
  GetOptionFlags opts := opts.FeatureFlags
  IsUniqueConstraintError e indexes :=
    match e with
    | .New msg => indexes.any (fun i => decide (msg = "duplicate key value violates unique constraint " ++ i))
    | _ => false
  RemoteClusterSiteURLUniqueIndex := "remote_clusters_site_url_unique"
  GetRemoteClusterService _ := service

/-- The empty in-memory store. -/
def memEmpty : MemState := { records := [], issued := 0, now := 0 }


/-- The record the create branch of `RegisterPluginForSharedChannels` builds
from the options and the generated token: the composite literal of the source,
every other attribute at its zero value. -/
def newPluginRecord {σ H : Type} (a : App σ H) (opts : RegisterPluginOpts) (token : String) :
    RemoteCluster :=
  { RemoteId := "", Name := opts.Displayname, DisplayName := opts.Displayname, SiteURL := "",
    Token := token, CreatorId := opts.CreatorID, PluginID := opts.PluginID,
    Options := a.GetOptionFlags opts, Topics := "", LastPingAt := 0 }

/-! ## Sample inputs -/

/-- Registration options of the plugin `P1`. -/
def optsP1 : RegisterPluginOpts :=
  { Displayname := "Acme Bridge", PluginID := "P1", CreatorID := "bot", FeatureFlags := 1 }

/-- The same plugin registering again under a new display name. -/
def optsP1v2 : RegisterPluginOpts :=
  { Displayname := "Acme Bridge v2", PluginID := "P1", CreatorID := "bot", FeatureFlags := 1 }

/-- A record an administrator adds for the site `a.example`, carrying the
plugin identifier `P1`. -/
def adminRecordA : RemoteCluster :=
  { RemoteCluster.zero with
    Name := "a", DisplayName := "A", SiteURL := "https://a.example", Token := "ta",
    CreatorId := "admin", PluginID := "P1" }

/-- A record an administrator adds for the site `b.example`, carrying the
plugin identifier `P1` as well. -/
def adminRecordB : RemoteCluster :=
  { RemoteCluster.zero with
    Name := "b", DisplayName := "B", SiteURL := "https://b.example", Token := "tb",
    CreatorId := "admin", PluginID := "P1" }

/-- The in-memory store after the plugin `P1` has registered on the empty
store. -/
def memRegistered : MemState :=
  (RegisterPluginForSharedChannels (memApp none) optsP1 memEmpty).2

/-- The in-memory store after `AddRemoteCluster` has added `adminRecordA` and
then `adminRecordB` to the empty store. -/
def memTwoAdmin : MemState :=
  (AddRemoteCluster (memApp none) adminRecordB
    (AddRemoteCluster (memApp none) adminRecordA memEmpty).2).2

/-- An error of the store that is not the not-found condition. -/
def connectionLost : Error := .Wrap (.New "connection lost") "failed to query RemoteClusters"

/-- A store whose every method fails with `connectionLost` and changes
nothing. -/
def brokenStore : RemoteClusterStore MemState where
  Save _ s := ((none, some connectionLost), s)
  Update _ s := ((none, some connectionLost), s)
  Delete _ s := ((false, some connectionLost), s)
  Get _ s := ((none, some connectionLost), s)
  GetByPluginID _ s := ((none, some connectionLost), s)
  UpdateTopics _ _ s := ((none, some connectionLost), s)
  SetLastPingAt _ s := (some connectionLost, s)

/-- The in-memory application over the broken store. -/
def brokenApp : App MemState String :=
  { memApp none with Store := brokenStore }

/-- Registration options of a second plugin, `P2`. -/
def optsP2 : RegisterPluginOpts :=
  { Displayname := "Beta Bridge", PluginID := "P2", CreatorID := "bot", FeatureFlags := 0 }

/-- The record the in-memory store holds after `P1` has registered on the
empty store. -/
def registeredP1 : RemoteCluster :=
  { RemoteId := "r", Name := "Acme Bridge", DisplayName := "Acme Bridge", SiteURL := "",
    Token := "t", CreatorId := "bot", PluginID := "P1", Options := 1, Topics := "",
    LastPingAt := 0 }

/-- The in-memory store after `P1`, registered, has registered again under the
display name "Acme Bridge v2". -/
def memRenamed : MemState :=
  (RegisterPluginForSharedChannels (memApp none) optsP1v2 memRegistered).2

/-- A record an administrator adds for the site `c.example`, carrying the
plugin identifier `P3`. -/
def adminRecordC : RemoteCluster :=
  { RemoteCluster.zero with
    Name := "c", DisplayName := "C", SiteURL := "https://c.example", Token := "tc",
    CreatorId := "admin", PluginID := "P3" }

/-- The in-memory store with two records: `P1` has registered, then
`AddRemoteCluster` has added `adminRecordC`, which the store holds under the
`RemoteId` `rr`. -/
def memTwo : MemState :=
  (AddRemoteCluster (memApp none) adminRecordC memRegistered).2

/-- The record `adminRecordC` as the store holds it, under a new display name
and moved to the site `d.example`. -/
def adminRecordCv2 : RemoteCluster :=
  { adminRecordC with RemoteId := "rr", DisplayName := "C v2", SiteURL := "https://d.example" }

/-- The in-memory store `memTwo` after `UpdateRemoteCluster` with
`adminRecordCv2`. -/
def memTwoUpdated : MemState :=
  (UpdateRemoteCluster (memApp none) adminRecordCv2 memTwo).2

/-! # Theorems -/

/-! ## Lists of records -/

/-- Replacing by `RemoteId` keeps the `RemoteId` of every position. -/
theorem replaceById_map_remoteId (rc : RemoteCluster) (l : List RemoteCluster) :
    (replaceById rc l).map (fun x => x.RemoteId) = l.map (fun x => x.RemoteId) := by
  unfold replaceById
  rw [List.map_map]
  apply List.map_congr_left
  intro x _
  by_cases h : x.RemoteId = rc.RemoteId <;> simp [h]

/-- The replacing record is in the list when a record with its `RemoteId` was. -/
theorem mem_replaceById_self (rc : RemoteCluster) {rc0 : RemoteCluster} {l : List RemoteCluster}
    (h0 : rc0 ∈ l) (hid : rc.RemoteId = rc0.RemoteId) : rc ∈ replaceById rc l := by
  unfold replaceById
  rw [List.mem_map]
  exact ⟨rc0, h0, by simp [hid]⟩

/-- After a replacement every record with that `RemoteId` is the replacing record. -/
theorem eq_of_mem_replaceById {rc r : RemoteCluster} {l : List RemoteCluster}
    (hr : r ∈ replaceById rc l) (hid : r.RemoteId = rc.RemoteId) : r = rc := by
  unfold replaceById at hr
  rw [List.mem_map] at hr
  obtain ⟨x, _, hx⟩ := hr
  by_cases h : x.RemoteId = rc.RemoteId
  · simp [h] at hx
    exact hx.symm
  · simp [h] at hx
    subst hx
    exact absurd hid h

/-- Replacing a record by one with the same `PluginID` keeps the `PluginID` of
every position, when `RemoteId` is a key. -/
theorem replaceById_map_pluginID (rc : RemoteCluster) {rc0 : RemoteCluster} {l : List RemoteCluster}
    (hU : UniqueRemoteIds l) (h0 : rc0 ∈ l) (hid : rc.RemoteId = rc0.RemoteId)
    (hp : rc.PluginID = rc0.PluginID) :
    (replaceById rc l).map (fun x => x.PluginID) = l.map (fun x => x.PluginID) := by
  unfold replaceById
  rw [List.map_map]
  apply List.map_congr_left
  intro x hx
  by_cases h : x.RemoteId = rc.RemoteId
  · have : x = rc0 := List.inj_on_of_nodup_map hU hx h0 (h.trans hid)
    subst this
    simp [h, hp]
  · simp [h]

/-- The property `NoSharedPluginID` in terms of the list of plugin identifiers. -/
theorem noShared_iff_map (l : List RemoteCluster) :
    NoSharedPluginID l ↔ (l.map (fun x => x.PluginID)).Pairwise (fun p q => p = "" ∨ p ≠ q) := by
  unfold NoSharedPluginID
  rw [List.pairwise_map]

/-- When at most one record carries `p`, two records that carry it are equal. -/
theorem eq_of_pluginCount_le_one {p : String} {l : List RemoteCluster}
    (h : pluginCount p l ≤ 1) {x y : RemoteCluster} (hx : x ∈ l) (hy : y ∈ l)
    (hxp : x.PluginID = p) (hyp : y.PluginID = p) : x = y := by
  induction l with
  | nil => cases hx
  | cons a t ih =>
    have hmem : ∀ z ∈ t, z.PluginID = p → 0 < pluginCount p t := by
      intro z hz hzp
      unfold pluginCount
      rw [List.count_pos_iff]
      exact List.mem_map.mpr ⟨z, hz, hzp⟩
    unfold pluginCount at h
    rw [List.map_cons, List.count_cons] at h
    rcases List.mem_cons.mp hx with rfl | hx'
    · rcases List.mem_cons.mp hy with rfl | hy'
      · rfl
      · have := hmem y hy' hyp
        unfold pluginCount at this
        simp [hxp] at h
        omega
    · rcases List.mem_cons.mp hy with rfl | hy'
      · have := hmem x hx' hxp
        unfold pluginCount at this
        simp [hyp] at h
        omega
      · apply ih _ hx' hy'
        unfold pluginCount
        omega

/-- A record that carries `p` is counted. -/
theorem pluginCount_pos {p : String} {l : List RemoteCluster} {x : RemoteCluster}
    (hx : x ∈ l) (hxp : x.PluginID = p) : 0 < pluginCount p l := by
  unfold pluginCount
  rw [List.count_pos_iff]
  exact List.mem_map.mpr ⟨x, hx, hxp⟩

/-- No record carries `p`, so the count is zero. -/
theorem pluginCount_eq_zero {p : String} {l : List RemoteCluster}
    (h : ∀ x ∈ l, x.PluginID ≠ p) : pluginCount p l = 0 := by
  unfold pluginCount
  rw [List.count_eq_zero]
  intro hm
  obtain ⟨x, hx, hxp⟩ := List.mem_map.mp hm
  exact h x hx hxp

/-- Appending a record with a fresh `RemoteId` keeps `RemoteId` a key. -/
theorem uniqueRemoteIds_append {l : List RemoteCluster} {r : RemoteCluster}
    (hU : UniqueRemoteIds l) (hf : ∀ x ∈ l, x.RemoteId ≠ r.RemoteId) :
    UniqueRemoteIds (l ++ [r]) := by
  unfold UniqueRemoteIds at *
  rw [List.map_append, List.nodup_append]
  refine ⟨hU, by simp, ?_⟩
  intro a ha hb
  simp at hb
  obtain ⟨x, hx, rfl⟩ := List.mem_map.mp ha
  exact hf x hx hb

/-- Appending a record whose `PluginID` is empty or new keeps plugin
identifiers apart. -/
theorem noShared_append {l : List RemoteCluster} {r : RemoteCluster}
    (hN : NoSharedPluginID l) (hf : r.PluginID = "" ∨ ∀ x ∈ l, x.PluginID ≠ r.PluginID) :
    NoSharedPluginID (l ++ [r]) := by
  unfold NoSharedPluginID at *
  rw [List.pairwise_append]
  refine ⟨hN, by simp, ?_⟩
  intro x hx y hy
  simp at hy
  subst hy
  rcases hf with h | h
  · by_cases hx0 : x.PluginID = ""
    · exact Or.inl hx0
    · right; rw [h]; exact hx0
  · exact Or.inr (h x hx)

/-- Removing records keeps `RemoteId` a key. -/
theorem uniqueRemoteIds_removeById (id : String) {l : List RemoteCluster}
    (hU : UniqueRemoteIds l) : UniqueRemoteIds (removeById id l) := by
  unfold UniqueRemoteIds removeById at *
  exact hU.sublist (List.filter_sublist l |>.map _)

/-- Removing records keeps plugin identifiers apart. -/
theorem noShared_removeById (id : String) {l : List RemoteCluster}
    (hN : NoSharedPluginID l) : NoSharedPluginID (removeById id l) := by
  unfold NoSharedPluginID removeById at *
  exact hN.sublist (List.filter_sublist l)

/-- The property `NoSharedPluginID` depends on the list of plugin identifiers
only. -/
theorem noShared_of_map_eq {l l2 : List RemoteCluster}
    (h : l2.map (fun x => x.PluginID) = l.map (fun x => x.PluginID))
    (hN : NoSharedPluginID l) : NoSharedPluginID l2 := by
  rw [noShared_iff_map] at *
  rw [h]
  exact hN

/-- Replacing by `RemoteId` keeps plugin identifiers apart when the replacing
record has an empty `PluginID` or one that only the record it replaces
carries. -/
theorem noShared_replaceById {rc : RemoteCluster} {l : List RemoteCluster}
    (hU : UniqueRemoteIds l) (hN : NoSharedPluginID l)
    (hside : rc.PluginID = "" ∨ ∀ x ∈ l, x.PluginID = rc.PluginID → x.RemoteId = rc.RemoteId) :
    NoSharedPluginID (replaceById rc l) := by
  unfold NoSharedPluginID replaceById UniqueRemoteIds at *
  rw [List.pairwise_map]
  rw [List.Nodup, List.pairwise_map] at hU
  refine List.Pairwise.imp_of_mem ?_ (hN.and hU)
  intro a b ha hb hab
  obtain ⟨hR, hne⟩ := hab
  by_cases h1 : a.RemoteId = rc.RemoteId
  · have h2 : ¬ b.RemoteId = rc.RemoteId := fun h => hne (h1.trans h.symm)
    simp only [h1, h2, if_true, if_false]
    rcases hside with h | h
    · exact Or.inl h
    · right
      intro hpp
      exact h2 (h b hb hpp.symm)
  · by_cases h2 : b.RemoteId = rc.RemoteId
    · simp only [h1, h2, if_true, if_false]
      by_cases ha0 : a.PluginID = ""
      · exact Or.inl ha0
      · right
        rcases hside with h | h
        · rw [h]; exact ha0
        · intro hpp
          exact h1 (h a ha hpp)
    · simp only [h1, h2, if_false]
      exact hR

/-! ## Effects of the operations under the store contract -/

section Effects

variable {σ H : Type}

/-- What a successful registration does to the records of a store that
satisfies the contract: it replaces the record that carries the plugin
identifier and returns its `RemoteId`, or, no record carrying it, it appends
one under a fresh `RemoteId` and returns that. -/
theorem register_effect {a : App σ H} {recs : σ → List RemoteCluster}
    (hC : StoreContract a recs) {opts : RegisterPluginOpts} {s s' : σ} {id : String}
    (hrun : RegisterPluginForSharedChannels a opts s = (some (id, none), s')) :
    (∃ rc0 ∈ recs s, rc0.PluginID = opts.PluginID ∧ id = rc0.RemoteId ∧
      recs s' = replaceById
        { rc0 with DisplayName := opts.Displayname, Options := a.GetOptionFlags opts } (recs s)) ∨
    ((∀ x ∈ recs s, x.PluginID ≠ opts.PluginID) ∧
      ∃ saved : RemoteCluster, saved.PluginID = opts.PluginID ∧ saved.RemoteId = id ∧
        (∀ x ∈ recs s, x.RemoteId ≠ id) ∧ recs s' = recs s ++ [saved]) := by
  have hpure := hC.lookup_pure opts.PluginID s
  have hlk := hC.lookup opts.PluginID s
  rcases hr : a.Store.GetByPluginID opts.PluginID s with ⟨⟨rc, err⟩, s1⟩
  rw [hr] at hpure hlk
  simp only at hpure hlk
  rcases hlk with ⟨rc0, h1, hmem, hp⟩ | ⟨e, h1, hnf, hno⟩
  · left
    simp only [Prod.mk.injEq] at h1
    obtain ⟨rfl, rfl⟩ := h1
    have hup := hC.update
      { rc0 with DisplayName := opts.Displayname, Options := a.GetOptionFlags opts } s1
    rcases hu : a.Store.Update
      { rc0 with DisplayName := opts.Displayname, Options := a.GetOptionFlags opts } s1
      with ⟨⟨x, uerr⟩, s2⟩
    rw [hu] at hup
    cases uerr with
    | some e => simp [RegisterPluginForSharedChannels, hr, hu] at hrun
    | none =>
      simp [RegisterPluginForSharedChannels, hr, hu] at hrun
      obtain ⟨rfl, rfl⟩ := hrun
      refine ⟨rc0, hmem, hp, rfl, ?_⟩
      rw [hup rfl, hpure]
  · right
    simp only [Prod.mk.injEq] at h1
    obtain ⟨rfl, rfl⟩ := h1
    refine ⟨hno, ?_⟩
    have hnew := hC.newId s1
    rcases hn : a.NewId s1 with ⟨token, s2⟩
    rw [hn] at hnew
    simp only at hnew
    have hsv := hC.save (newPluginRecord a opts token) s2
    rcases hsr : a.Store.Save (newPluginRecord a opts token) s2 with ⟨⟨saved, serr⟩, s3⟩
    rw [hsr] at hsv
    simp only [newPluginRecord] at hsr
    cases serr with
    | some e =>
      simp [RegisterPluginForSharedChannels, hr, hn, hnf, RemoteCluster.zero, hsr] at hrun
    | none =>
      obtain ⟨saved0, hs0, hsaved, hfresh, hrecs⟩ := hsv rfl
      simp only at hs0 hrecs
      subst hs0
      simp [RegisterPluginForSharedChannels, hr, hn, hnf, RemoteCluster.zero, hsr] at hrun
      obtain ⟨rfl, rfl⟩ := hrun
      refine ⟨saved0, ?_, rfl, ?_, ?_⟩
      · rw [hsaved]
        rfl
      · rw [hnew, hpure] at hfresh
        exact hfresh
      · rw [hrecs, hnew, hpure]

/-- The state after a successful registration, from a state in which `RemoteId`
is a key and at most one record carries the plugin identifier: exactly one
record carries it, with the `RemoteId` returned, which is the one of the record
that carried it before, if any. -/
theorem register_post {a : App σ H} {recs : σ → List RemoteCluster}
    (hC : StoreContract a recs) {opts : RegisterPluginOpts} {s s' : σ} {id : String}
    (hU : UniqueRemoteIds (recs s)) (hone : pluginCount opts.PluginID (recs s) ≤ 1)
    (hrun : RegisterPluginForSharedChannels a opts s = (some (id, none), s')) :
    UniqueRemoteIds (recs s') ∧ pluginCount opts.PluginID (recs s') = 1 ∧
    (∃ r ∈ recs s', r.RemoteId = id ∧ r.PluginID = opts.PluginID) ∧
    (∀ r ∈ recs s, r.PluginID = opts.PluginID → r.RemoteId = id) := by
  rcases register_effect hC hrun with ⟨rc0, hmem, hp, rfl, hrecs⟩ | ⟨hno, saved, hsp, rfl, hfresh, hrecs⟩
  · have hids := replaceById_map_remoteId
      { rc0 with DisplayName := opts.Displayname, Options := a.GetOptionFlags opts } (recs s)
    have hpl := replaceById_map_pluginID
      { rc0 with DisplayName := opts.Displayname, Options := a.GetOptionFlags opts }
      hU hmem rfl rfl
    refine ⟨?_, ?_, ?_, ?_⟩
    · unfold UniqueRemoteIds
      rw [hrecs, hids]
      exact hU
    · have hpos := pluginCount_pos hmem hp
      unfold pluginCount at *
      rw [hrecs, hpl]
      omega
    · refine ⟨{ rc0 with DisplayName := opts.Displayname, Options := a.GetOptionFlags opts },
        ?_, rfl, hp⟩
      rw [hrecs]
      exact mem_replaceById_self _ hmem rfl
    · intro r hr hrp
      rw [eq_of_pluginCount_le_one hone hr hmem hrp hp]
  · refine ⟨?_, ?_, ?_, ?_⟩
    · rw [hrecs]
      exact uniqueRemoteIds_append hU hfresh
    · have h0 := pluginCount_eq_zero hno
      unfold pluginCount at *
      rw [hrecs, List.map_append, List.count_append, h0]
      simp [hsp]
    · exact ⟨saved, by rw [hrecs]; simp, rfl, hsp⟩
    · intro r hr hrp
      exact absurd hrp (hno r hr)

/-- What a successful unregistration does to the records of a store that
satisfies the contract: it removes a record that carries the plugin
identifier. -/
theorem unregister_effect {a : App σ H} {recs : σ → List RemoteCluster}
    (hC : StoreContract a recs) {pluginID : String} {s s' : σ}
    (hrun : UnregisterPluginForSharedChannels a pluginID s = (some none, s')) :
    ∃ rc ∈ recs s, rc.PluginID = pluginID ∧ recs s' = removeById rc.RemoteId (recs s) := by
  have hpure := hC.lookup_pure pluginID s
  have hlk := hC.lookup pluginID s
  rcases hr : a.Store.GetByPluginID pluginID s with ⟨⟨rc, err⟩, s1⟩
  rw [hr] at hpure hlk
  simp only at hpure hlk
  rcases hlk with ⟨rc0, h1, hmem, hp⟩ | ⟨e, h1, hnf, hno⟩
  · simp only [Prod.mk.injEq] at h1
    obtain ⟨rfl, rfl⟩ := h1
    have hd := hC.delete rc0.RemoteId s1
    rcases hdel : a.Store.Delete rc0.RemoteId s1 with ⟨⟨deleted, derr⟩, s2⟩
    rw [hdel] at hd
    cases derr with
    | some e => simp [UnregisterPluginForSharedChannels, DeleteRemoteCluster, hr, hdel] at hrun
    | none =>
      simp [UnregisterPluginForSharedChannels, DeleteRemoteCluster, hr, hdel] at hrun
      subst hrun
      refine ⟨rc0, hmem, hp, ?_⟩
      rw [(hd rfl).1, hpure]
  · simp only [Prod.mk.injEq] at h1
    obtain ⟨rfl, rfl⟩ := h1
    simp [UnregisterPluginForSharedChannels, hr] at hrun

end Effects

section Preserving

/-- A change of every record that keeps `RemoteId` and `PluginID` keeps both
properties of the list. -/
theorem inv_map_of_preserving {g : RemoteCluster → RemoteCluster} {l : List RemoteCluster}
    (hid : ∀ x, (g x).RemoteId = x.RemoteId) (hp : ∀ x, (g x).PluginID = x.PluginID)
    (hU : UniqueRemoteIds l) (hN : NoSharedPluginID l) :
    UniqueRemoteIds (l.map g) ∧ NoSharedPluginID (l.map g) := by
  constructor
  · unfold UniqueRemoteIds at *
    rw [List.map_map]
    have : ((fun x => x.RemoteId) ∘ g) = fun x => x.RemoteId := funext hid
    rw [this]
    exact hU
  · unfold NoSharedPluginID at *
    rw [List.pairwise_map]
    simpa [hp] using hN

end Preserving

/-! ## The in-memory store satisfies the contract -/

/-- The length of a `RemoteId` of the list is below the maximum of the
lengths. -/
theorem length_le_foldr_max {l : List RemoteCluster} {x : RemoteCluster} (hx : x ∈ l) :
    x.RemoteId.length ≤ (l.map (fun x => x.RemoteId.length)).foldr max 0 := by
  induction l with
  | nil => cases hx
  | cons a t ih =>
    simp only [List.map_cons, List.foldr_cons]
    rcases List.mem_cons.mp hx with rfl | h
    · exact le_max_left _ _
    · exact le_trans (ih h) (le_max_right _ _)

/-- The identifier `memFreshId l` is the `RemoteId` of no record of `l`. -/
theorem memFreshId_fresh (l : List RemoteCluster) : ∀ x ∈ l, x.RemoteId ≠ memFreshId l := by
  intro x hx h
  have h1 := length_le_foldr_max hx
  have h2 : (memFreshId l).length = (l.map (fun x => x.RemoteId.length)).foldr max 0 + 1 := by
    show (List.replicate ((l.map (fun x => x.RemoteId.length)).foldr max 0 + 1) 'r').length = _
    exact List.length_replicate _ _
  rw [h] at h1
  omega

/-- The in-memory application satisfies the store contract. -/
theorem memApp_contract (service : Option String) :
    StoreContract (memApp service) MemState.records where
  newId := by intro s; rfl
  lookup_pure := by
    intro p s
    simp only [memApp, memStore]
    split <;> rfl
  lookup := by
    intro p s
    simp only [memApp, memStore]
    cases hf : s.records.find? (fun x => decide (x.PluginID = p)) with
    | some rc =>
      left
      refine ⟨rc, rfl, List.mem_of_find?_eq_some hf, ?_⟩
      simpa using List.find?_some hf
    | none =>
      right
      refine ⟨memNotFound, rfl, rfl, ?_⟩
      intro rc hrc
      simpa using List.find?_eq_none.mp hf rc hrc
  save := by
    intro rc s
    simp only [memApp, memStore]
    split
    · intro h; simp at h
    · intro _
      exact ⟨_, rfl, rfl, memFreshId_fresh s.records, rfl⟩
  update := by
    intro rc s
    simp only [memApp, memStore]
    split
    · intro h; simp at h
    · intro _; rfl
  delete := by
    intro id s _
    exact ⟨rfl, rfl⟩
  get_pure := by
    intro id s
    simp only [memApp, memStore]
    split <;> rfl
  get := by
    intro id s got
    simp only [memApp, memStore]
    cases hf : s.records.find? (fun x => decide (x.RemoteId = id)) with
    | some rc =>
      intro h
      simp at h
      subst h
      refine ⟨List.mem_of_find?_eq_some hf, ?_⟩
      simpa using List.find?_some hf
    | none => intro h; simp at h
  updateTopics := by
    intro id topics s
    simp only [memApp, memStore]
    split
    · intro _; rfl
    · intro h; simp at h
  setLastPingAt := by
    intro id s _
    exact ⟨s.now, rfl⟩

/-- The `Get` of the in-memory store finds the records of the store. -/
theorem memApp_getFinds (service : Option String) :
    GetFindsRecords (memApp service) MemState.records := by
  intro id s hex
  obtain ⟨r, hr, hid⟩ := hex
  simp only [memApp, memStore]
  cases hf : s.records.find? (fun x => decide (x.RemoteId = id)) with
  | some rc => exact ⟨rc, rfl⟩
  | none =>
    have := List.find?_eq_none.mp hf r hr
    simp [hid] at this

/-! ## The claims -/

section Claims

variable {σ H : Type}

/-- Claim C1, as amended. Idempotent registration over a store that satisfies
the store contract: from a store state in which `RemoteId` is a key and at most
one record carries `opts.PluginID`, two calls of
`RegisterPluginForSharedChannels opts` in a row that both succeed return the
same `RemoteId`, and the store then holds exactly one record whose `PluginID`
is `opts.PluginID`. -/
theorem register_twice_same_id_one_record (a : App σ H) (recs : σ → List RemoteCluster)
    (hC : StoreContract a recs) (opts : RegisterPluginOpts) (s s1 s2 : σ) (id1 id2 : String)
    (hU : UniqueRemoteIds (recs s)) (hone : pluginCount opts.PluginID (recs s) ≤ 1)
    (h1 : RegisterPluginForSharedChannels a opts s = (some (id1, none), s1))
    (h2 : RegisterPluginForSharedChannels a opts s1 = (some (id2, none), s2)) :
    id1 = id2 ∧ pluginCount opts.PluginID (recs s2) = 1 := by
  obtain ⟨hU1, hc1, ⟨r, hr, hrid, hrp⟩, _⟩ := register_post hC hU hone h1
  obtain ⟨_, hc2, _, hsame⟩ := register_post hC hU1 (le_of_eq hc1) h2
  exact ⟨by rw [← hrid]; exact hsame r hr hrp, hc2⟩

/-- The amended claim C1 on the in-memory store: the plugin `P1` registers
twice on the empty store, gets `r` both times, and one record carries `P1`. -/
theorem register_twice_same_id_one_record_witness :
    UniqueRemoteIds memEmpty.records ∧ pluginCount optsP1.PluginID memEmpty.records ≤ 1 ∧
    RegisterPluginForSharedChannels (memApp none) optsP1 memEmpty =
      (some ("r", none), memRegistered) ∧
    RegisterPluginForSharedChannels (memApp none) optsP1 memRegistered =
      (some ("r", none), memRegistered) ∧
    ("r" = "r" ∧ pluginCount optsP1.PluginID memRegistered.records = 1) :=
  ⟨by decide, by decide, by decide, by decide,
    register_twice_same_id_one_record (memApp none) MemState.records (memApp_contract none)
      optsP1 memEmpty memRegistered memRegistered "r" "r" (by decide) (by decide)
      (by decide) (by decide)⟩

/-- Claim C1 as stated fails. The in-memory store satisfies the store contract;
`AddRemoteCluster` puts two records with the plugin identifier `P1` (and
different site URLs) into the empty store; then two registrations of `P1` in a
row both succeed and return the same `RemoteId`, and the store holds two
records whose `PluginID` is `P1`, not one. -/
theorem register_twice_leaves_two_records :
    StoreContract (memApp none) MemState.records ∧
    (AddRemoteCluster (memApp none) adminRecordA memEmpty).1.2 = none ∧
    (AddRemoteCluster (memApp none) adminRecordB
      (AddRemoteCluster (memApp none) adminRecordA memEmpty).2).1.2 = none ∧
    UniqueRemoteIds memTwoAdmin.records ∧
    (RegisterPluginForSharedChannels (memApp none) optsP1 memTwoAdmin).1 = some ("r", none) ∧
    (RegisterPluginForSharedChannels (memApp none) optsP1
      (RegisterPluginForSharedChannels (memApp none) optsP1 memTwoAdmin).2).1 =
      some ("r", none) ∧
    pluginCount optsP1.PluginID
      (RegisterPluginForSharedChannels (memApp none) optsP1
        (RegisterPluginForSharedChannels (memApp none) optsP1 memTwoAdmin).2).2.records = 2 :=
  ⟨memApp_contract none, by decide, by decide, by decide, by decide, by decide, by decide⟩

/-- Claim C2. Update branch of the registration: when the lookup returns a
record `rc` (with no error, or with one that is the not-found condition),
`RegisterPluginForSharedChannels` calls the store's `Update`, after the lookup
and nothing else, with the record `rc` whose `DisplayName` and `Options` are
overwritten from the options and whose `RemoteId`, `Token`, `SiteURL`,
`CreatorId` and `PluginID` are those of `rc`; it does not call `Save`; when
`Update` reports no error it returns `rc.RemoteId` and no error. Over a store
that satisfies the store contract the store then holds a record with that
`RemoteId`, and every record a later `GetRemoteCluster` by that `RemoteId`
returns has the new display name; when moreover the store's `Get` finds the
records of the store, a later `GetRemoteCluster` by that `RemoteId` returns a
record and no failure, and the record has the new display name. -/
theorem register_update_branch (a : App σ H) (opts : RegisterPluginOpts) (s s1 : σ)
    (rc : RemoteCluster) (err : Option Error)
    (hlook : a.Store.GetByPluginID opts.PluginID s = ((some rc, err), s1))
    (herr : ∀ e, err = some e → errorsIsErrNoRows e = true) :
    ∃ rcU : RemoteCluster,
      rcU = { rc with DisplayName := opts.Displayname, Options := a.GetOptionFlags opts } ∧
      (RegisterPluginForSharedChannels a.traced opts (s, [])).2.2 =
        [Call.GetByPluginID opts.PluginID, Call.Update rcU] ∧
      rcU.DisplayName = opts.Displayname ∧ rcU.Options = a.GetOptionFlags opts ∧
      rcU.RemoteId = rc.RemoteId ∧ rcU.Token = rc.Token ∧ rcU.SiteURL = rc.SiteURL ∧
      rcU.CreatorId = rc.CreatorId ∧ rcU.PluginID = rc.PluginID ∧
      (∀ x s2, a.Store.Update rcU s1 = ((x, none), s2) →
        (RegisterPluginForSharedChannels a.traced opts (s, [])).1 = some (rc.RemoteId, none) ∧
        (RegisterPluginForSharedChannels a.traced opts (s, [])).2.1 = s2 ∧
        ∀ recs : σ → List RemoteCluster, StoreContract a recs →
          (∃ r ∈ recs s2, r.RemoteId = rc.RemoteId) ∧
          (∀ got, (GetRemoteCluster a rc.RemoteId s2).1.1 = some got →
            got.DisplayName = opts.Displayname) ∧
          (GetFindsRecords a recs →
            ∃ got, (GetRemoteCluster a rc.RemoteId s2).1 = (some got, none) ∧
              got.DisplayName = opts.Displayname)) := by
  refine ⟨{ rc with DisplayName := opts.Displayname, Options := a.GetOptionFlags opts },
    rfl, ?_, rfl, rfl, rfl, rfl, rfl, rfl, rfl, ?_⟩
  · cases err with
    | none =>
      simp only [RegisterPluginForSharedChannels, App.traced, RemoteClusterStore.traced, hlook]
      simp
      split <;> simp
    | some e =>
      have := herr e rfl
      simp only [RegisterPluginForSharedChannels, App.traced, RemoteClusterStore.traced, hlook, this]
      simp
      split <;> simp
  · intro x s2 hu
    refine ⟨?_, ?_, ?_⟩
    · cases err with
      | none =>
        simp [RegisterPluginForSharedChannels, App.traced, RemoteClusterStore.traced, hlook, hu]
      | some e =>
        have := herr e rfl
        simp [RegisterPluginForSharedChannels, App.traced, RemoteClusterStore.traced, hlook, hu,
          this]
    · cases err with
      | none =>
        simp [RegisterPluginForSharedChannels, App.traced, RemoteClusterStore.traced, hlook, hu]
      | some e =>
        have := herr e rfl
        simp [RegisterPluginForSharedChannels, App.traced, RemoteClusterStore.traced, hlook, hu,
          this]
    · intro recs hC
      have hmem : rc ∈ recs s1 := by
        have hpure := hC.lookup_pure opts.PluginID s
        rw [hlook] at hpure
        rw [hpure]
        rcases hC.lookup opts.PluginID s with ⟨rc0, h1, hm, _⟩ | ⟨e, h1, _, _⟩
        · rw [hlook] at h1
          simp only [Prod.mk.injEq, Option.some.injEq] at h1
          rw [h1.1]
          exact hm
        · rw [hlook] at h1
          simp at h1
      have hrecs : recs s2 = replaceById
          { rc with DisplayName := opts.Displayname, Options := a.GetOptionFlags opts }
          (recs s1) := by
        have := hC.update
          { rc with DisplayName := opts.Displayname, Options := a.GetOptionFlags opts } s1
        rw [hu] at this
        exact this rfl
      have hin2 : ({ rc with
          DisplayName := opts.Displayname,
          Options := a.GetOptionFlags opts } : RemoteCluster) ∈ recs s2 := by
        rw [hrecs]
        exact mem_replaceById_self _ hmem rfl
      have hshown : ∀ got, (GetRemoteCluster a rc.RemoteId s2).1.1 = some got →
          got.DisplayName = opts.Displayname := by
        intro got hg
        have hget := hC.get rc.RemoteId s2 got
        rcases hgr : a.Store.Get rc.RemoteId s2 with ⟨⟨g, ge⟩, s3⟩
        rw [hgr] at hget
        cases ge with
        | some e => simp [GetRemoteCluster, hgr] at hg
        | none =>
          simp [GetRemoteCluster, hgr] at hg
          obtain ⟨hin, hid⟩ := hget hg
          rw [hrecs] at hin
          rw [eq_of_mem_replaceById hin hid]
      refine ⟨⟨_, hin2, rfl⟩, hshown, ?_⟩
      intro hfinds
      obtain ⟨got, hgot⟩ := hfinds rc.RemoteId s2 ⟨_, hin2, rfl⟩
      have hres : (GetRemoteCluster a rc.RemoteId s2).1 = (some got, none) := by
        rcases hgr : a.Store.Get rc.RemoteId s2 with ⟨⟨g, ge⟩, s3⟩
        rw [hgr] at hgot
        simp only [Prod.mk.injEq] at hgot
        obtain ⟨rfl, rfl⟩ := hgot
        simp [GetRemoteCluster, hgr]
      exact ⟨got, hres, hshown got (by rw [hres])⟩

/-- Claim C2 on the in-memory store: `P1` is registered and registers again
under the display name "Acme Bridge v2"; the record passed to `Update` has the
new display name and the old token, the call returns `r`, and a later
`GetRemoteCluster` of `r` returns a record with the display name
"Acme Bridge v2". -/
theorem register_update_branch_witness :
    (memApp none).Store.GetByPluginID optsP1v2.PluginID memRegistered =
      ((some registeredP1, none), memRegistered) ∧
    ∃ rcU : RemoteCluster,
      (RegisterPluginForSharedChannels (memApp none).traced optsP1v2 (memRegistered, [])).2.2 =
        [Call.GetByPluginID "P1", Call.Update rcU] ∧
      rcU.DisplayName = "Acme Bridge v2" ∧ rcU.RemoteId = "r" ∧ rcU.Token = "t" ∧
      (memApp none).Store.Update rcU memRegistered = ((some rcU, none), memRenamed) ∧
      (RegisterPluginForSharedChannels (memApp none).traced optsP1v2 (memRegistered, [])).1 =
        some ("r", none) ∧
      ∃ got, (GetRemoteCluster (memApp none) "r" memRenamed).1 = (some got, none) ∧
        got.DisplayName = "Acme Bridge v2" :=
  ⟨by decide, by
    obtain ⟨rcU, hrc, hlog, hdn, _, hid, htok, _, _, _, hupd⟩ :=
      register_update_branch (memApp none) optsP1v2 memRegistered memRegistered
        registeredP1 none (by decide) (by simp)
    subst hrc
    have hu : (memApp none).Store.Update
        { registeredP1 with
          DisplayName := optsP1v2.Displayname,
          Options := (memApp none).GetOptionFlags optsP1v2 } memRegistered =
        ((some { registeredP1 with
            DisplayName := optsP1v2.Displayname,
            Options := (memApp none).GetOptionFlags optsP1v2 }, none),
          memRenamed) := by decide
    obtain ⟨hret, _, hstore⟩ := hupd _ memRenamed hu
    obtain ⟨_, _, hget⟩ := hstore MemState.records (memApp_contract none)
    exact ⟨_, hlog, hdn, hid, htok, hu, hret, hget (memApp_getFinds none)⟩⟩

/-- Claim C3. Create branch of the registration: when the lookup returns no
record and fails with the not-found condition, `RegisterPluginForSharedChannels`
calls the store's `Save`, once, after the lookup and nothing else (no `Update`),
with a new record whose `Name` and `DisplayName` are `opts.Displayname`, whose
`Token` is the identifier just generated, whose `CreatorId`, `PluginID` and
`Options` come from the options; the error it returns, if any, is the one of
`Save`, not the one of the lookup; and when `Save` returns a record and no error
it returns the `RemoteId` of that record and no error. -/
theorem register_create_branch (a : App σ H) (opts : RegisterPluginOpts) (s s1 : σ) (e : Error)
    (hlook : a.Store.GetByPluginID opts.PluginID s = ((none, some e), s1))
    (hnf : errorsIsErrNoRows e = true) :
    (RegisterPluginForSharedChannels a.traced opts (s, [])).2.2 =
      [Call.GetByPluginID opts.PluginID,
       Call.Save (newPluginRecord a opts (a.NewId s1).1)] ∧
    (∀ r, (RegisterPluginForSharedChannels a.traced opts (s, [])).1 = some r →
      r.2 = (a.Store.Save (newPluginRecord a opts (a.NewId s1).1) (a.NewId s1).2).1.2) ∧
    (∀ saved s3,
      a.Store.Save (newPluginRecord a opts (a.NewId s1).1) (a.NewId s1).2 =
        ((some saved, none), s3) →
      (RegisterPluginForSharedChannels a.traced opts (s, [])).1 = some (saved.RemoteId, none) ∧
      (RegisterPluginForSharedChannels a.traced opts (s, [])).2.1 = s3) := by
  refine ⟨?_, ?_, ?_⟩
  · simp only [RegisterPluginForSharedChannels, App.traced, RemoteClusterStore.traced, hlook, hnf,
      newPluginRecord, RemoteCluster.zero]
    simp
    split <;> [skip; split] <;> simp
  · intro r
    simp only [RegisterPluginForSharedChannels, App.traced, RemoteClusterStore.traced, hlook, hnf,
      newPluginRecord, RemoteCluster.zero]
    simp
    split <;> [skip; split] <;> simp_all <;> rintro rfl <;> rfl
  · intro saved s3 hs
    simp [RegisterPluginForSharedChannels, App.traced, RemoteClusterStore.traced, hlook, hnf,
      newPluginRecord, RemoteCluster.zero] at hs ⊢
    simp [hs]

/-- Claim C3 on the in-memory store: `P1` registers on the empty store; the
store sees the lookup and one `Save` of the new record with the token `t`, and
the call returns the `RemoteId` that `Save` assigned. -/
theorem register_create_branch_witness :
    (memApp none).Store.GetByPluginID optsP1.PluginID memEmpty =
      ((none, some memNotFound), memEmpty) ∧
    errorsIsErrNoRows memNotFound = true ∧
    (RegisterPluginForSharedChannels (memApp none).traced optsP1 (memEmpty, [])).2.2 =
      [Call.GetByPluginID "P1", Call.Save (newPluginRecord (memApp none) optsP1 "t")] ∧
    (RegisterPluginForSharedChannels (memApp none).traced optsP1 (memEmpty, [])).1 =
      some ("r", none) :=
  ⟨by decide, by decide,
    (register_create_branch (memApp none) optsP1 memEmpty memEmpty memNotFound
      (by decide) (by decide)).1,
    ((register_create_branch (memApp none) optsP1 memEmpty memEmpty memNotFound
      (by decide) (by decide)).2.2 registeredP1 memRegistered (by decide)).1⟩

/-- Claim C4. The registration surfaces persistence errors as they are: when
the lookup fails with an error that is not the not-found condition,
`RegisterPluginForSharedChannels` returns the empty `RemoteId` with exactly that
error, and the lookup is the only store call it makes (no `Save`, no `Update`);
when the lookup does not fail that way and the `Update` (a record was found) or
the `Save` (none was found) fails with an error `e`, it returns the empty
`RemoteId` with exactly `e`. -/
theorem register_surfaces_errors (a : App σ H) (opts : RegisterPluginOpts) (s s1 : σ)
    (rc : Option RemoteCluster) (err : Option Error)
    (hlook : a.Store.GetByPluginID opts.PluginID s = ((rc, err), s1)) :
    (∀ e, err = some e → errorsIsErrNoRows e = false →
      RegisterPluginForSharedChannels a.traced opts (s, []) =
        (some ("", some e), (s1, [Call.GetByPluginID opts.PluginID]))) ∧
    ((∀ e, err = some e → errorsIsErrNoRows e = true) →
      (∀ found x e s2, rc = some found →
        a.Store.Update
          { found with DisplayName := opts.Displayname, Options := a.GetOptionFlags opts } s1 =
          ((x, some e), s2) →
        (RegisterPluginForSharedChannels a.traced opts (s, [])).1 = some ("", some e)) ∧
      (∀ x e s3, rc = none →
        a.Store.Save (newPluginRecord a opts (a.NewId s1).1) (a.NewId s1).2 = ((x, some e), s3) →
        (RegisterPluginForSharedChannels a.traced opts (s, [])).1 = some ("", some e))) := by
  refine ⟨?_, ?_⟩
  · rintro e rfl he
    simp [RegisterPluginForSharedChannels, App.traced, RemoteClusterStore.traced, hlook, he]
  · intro herr
    refine ⟨?_, ?_⟩
    · rintro found x e s2 rfl hu
      cases err with
      | none =>
        simp [RegisterPluginForSharedChannels, App.traced, RemoteClusterStore.traced, hlook, hu]
      | some e0 =>
        simp [RegisterPluginForSharedChannels, App.traced, RemoteClusterStore.traced, hlook, hu,
          herr e0 rfl]
    · rintro x e s3 rfl hs
      cases err with
      | none =>
        simp [RegisterPluginForSharedChannels, App.traced, RemoteClusterStore.traced, hlook,
          newPluginRecord, RemoteCluster.zero] at hs ⊢
        simp [hs]
      | some e0 =>
        simp [RegisterPluginForSharedChannels, App.traced, RemoteClusterStore.traced, hlook,
          newPluginRecord, RemoteCluster.zero, herr e0 rfl] at hs ⊢
        simp [hs]

/-- Claim C4 on two stores: over the broken store the lookup fails with
`connectionLost`, which the registration returns after that one call; over the
in-memory store a second plugin `P2` registers while the record of `P1` holds
the empty site URL, `Save` fails on the site URL and the registration returns
that error. -/
theorem register_surfaces_errors_witness :
    brokenApp.Store.GetByPluginID optsP1.PluginID memEmpty =
      ((none, some connectionLost), memEmpty) ∧
    RegisterPluginForSharedChannels brokenApp.traced optsP1 (memEmpty, []) =
      (some ("", some connectionLost), (memEmpty, [Call.GetByPluginID "P1"])) ∧
    (memApp none).Store.GetByPluginID optsP2.PluginID memRegistered =
      ((none, some memNotFound), memRegistered) ∧
    (RegisterPluginForSharedChannels (memApp none).traced optsP2 (memRegistered, [])).1 =
      some ("", some memDuplicateSiteURL) :=
  ⟨by decide,
    (register_surfaces_errors brokenApp optsP1 memEmpty memEmpty none (some connectionLost)
      (by decide)).1 connectionLost rfl (by decide),
    by decide,
    ((register_surfaces_errors (memApp none) optsP2 memRegistered memRegistered none
      (some memNotFound) (by decide)).2 (by simp; decide)).2 none memDuplicateSiteURL
      ((memApp none).NewId memRegistered).2 rfl (by decide)⟩

/-- Claim C5. Uniqueness surfacing: when the store's `Save` (in
`AddRemoteCluster`) or `Update` (in `UpdateRemoteCluster`) fails with an error
`e`, the operation returns no record and a structured failure with status 500
that wraps `e`, whose identifier is the not-unique one exactly when the
unique-constraint classifier, applied to the cause of `e` and the single
site-URL index, answers true, and the generic one exactly when it answers
false; when the store call reports no error the operation returns what the
store returned and no failure. -/
theorem add_update_uniqueness_surfacing (a : App σ H) (rc : RemoteCluster) (s : σ) :
    (∀ x e s1, a.Store.Save rc s = ((x, some e), s1) →
      ∃ f : AppError, AddRemoteCluster a rc s = ((none, some f), s1) ∧ f.wrapped = some e ∧
        f.StatusCode = 500 ∧
        (f.Id = "api.remote_cluster.save_not_unique.app_error" ↔
          a.IsUniqueConstraintError (errorsCause e) [a.RemoteClusterSiteURLUniqueIndex] = true) ∧
        (f.Id = "api.remote_cluster.save.app_error" ↔
          a.IsUniqueConstraintError (errorsCause e) [a.RemoteClusterSiteURLUniqueIndex] = false)) ∧
    (∀ x s1, a.Store.Save rc s = ((x, none), s1) → AddRemoteCluster a rc s = ((x, none), s1)) ∧
    (∀ x e s1, a.Store.Update rc s = ((x, some e), s1) →
      ∃ f : AppError, UpdateRemoteCluster a rc s = ((none, some f), s1) ∧ f.wrapped = some e ∧
        f.StatusCode = 500 ∧
        (f.Id = "api.remote_cluster.update_not_unique.app_error" ↔
          a.IsUniqueConstraintError (errorsCause e) [a.RemoteClusterSiteURLUniqueIndex] = true) ∧
        (f.Id = "api.remote_cluster.update.app_error" ↔
          a.IsUniqueConstraintError (errorsCause e) [a.RemoteClusterSiteURLUniqueIndex] = false)) ∧
    (∀ x s1, a.Store.Update rc s = ((x, none), s1) →
      UpdateRemoteCluster a rc s = ((x, none), s1)) := by
  refine ⟨?_, ?_, ?_, ?_⟩
  · intro x e s1 h
    cases hc : a.IsUniqueConstraintError (errorsCause e) [a.RemoteClusterSiteURLUniqueIndex] <;>
      simp [AddRemoteCluster, h, hc, NewAppError, AppError.Wrap, StatusInternalServerError]
  · intro x s1 h
    simp [AddRemoteCluster, h]
  · intro x e s1 h
    cases hc : a.IsUniqueConstraintError (errorsCause e) [a.RemoteClusterSiteURLUniqueIndex] <;>
      simp [UpdateRemoteCluster, h, hc, NewAppError, AppError.Wrap, StatusInternalServerError]
  · intro x s1 h
    simp [UpdateRemoteCluster, h]

/-- Claim C5 on the in-memory store: adding `adminRecordA` a second time
collides on the site URL and yields the not-unique failure wrapping the store
error. -/
theorem add_update_uniqueness_surfacing_witness :
    (memApp none).Store.Save adminRecordA memTwoAdmin =
      ((none, some memDuplicateSiteURL), memTwoAdmin) ∧
    ∃ f : AppError,
      AddRemoteCluster (memApp none) adminRecordA memTwoAdmin = ((none, some f), memTwoAdmin) ∧
      f.wrapped = some memDuplicateSiteURL ∧
      f.Id = "api.remote_cluster.save_not_unique.app_error" :=
  ⟨by decide,
    match (add_update_uniqueness_surfacing (memApp none) adminRecordA memTwoAdmin).1
      none memDuplicateSiteURL memTwoAdmin (by decide) with
    | ⟨f, hf, hw, _, hid, _⟩ => ⟨f, hf, hw, hid.mpr (by decide)⟩⟩

/-- Claim C6, as amended. Over a store that satisfies the store contract, from
a store state in which `RemoteId` is a key and no two records share a non-empty
`PluginID`, every registry operation that succeeds leaves such a state again,
provided that a direct create or update (`AddRemoteCluster`,
`UpdateRemoteCluster`) passes a record whose `PluginID` is empty or carried by
no other record: the two take the `PluginID` as it comes. -/
theorem registry_keeps_plugin_ids_apart (a : App σ H) (recs : σ → List RemoteCluster)
    (hC : StoreContract a recs) (op : RegistryOp) (s s' : σ)
    (hU : UniqueRemoteIds (recs s)) (hN : NoSharedPluginID (recs s))
    (hside : op.keepsPluginIDsApart (recs s))
    (hrun : op.run a s = (true, s')) :
    UniqueRemoteIds (recs s') ∧ NoSharedPluginID (recs s') := by
  cases op with
  | Register opts =>
    have hex : ∃ id, RegisterPluginForSharedChannels a opts s = (some (id, none), s') := by
      simp only [RegistryOp.run] at hrun
      rcases hr : RegisterPluginForSharedChannels a opts s with ⟨r, s1⟩
      rw [hr] at hrun
      simp only [Prod.mk.injEq] at hrun
      obtain ⟨h1, rfl⟩ := hrun
      match r, h1 with
      | some (id, none), _ => exact ⟨id, rfl⟩
    obtain ⟨id, hreg⟩ := hex
    rcases register_effect hC hreg with
      ⟨rc0, hmem, hp, rfl, hrecs⟩ | ⟨hno, saved, hsp, rfl, hfresh, hrecs⟩
    · have hids := replaceById_map_remoteId
        { rc0 with DisplayName := opts.Displayname, Options := a.GetOptionFlags opts } (recs s)
      have hpl := replaceById_map_pluginID
        { rc0 with DisplayName := opts.Displayname, Options := a.GetOptionFlags opts }
        hU hmem rfl rfl
      constructor
      · unfold UniqueRemoteIds
        rw [hrecs, hids]
        exact hU
      · exact noShared_of_map_eq (by rw [hrecs, hpl]) hN
    · rw [hrecs]
      exact ⟨uniqueRemoteIds_append hU hfresh,
        noShared_append hN (Or.inr (fun x hx => by rw [hsp]; exact hno x hx))⟩
  | Unregister pluginID =>
    have hun : UnregisterPluginForSharedChannels a pluginID s = (some none, s') := by
      simp only [RegistryOp.run] at hrun
      rcases hr : UnregisterPluginForSharedChannels a pluginID s with ⟨r, s1⟩
      rw [hr] at hrun
      simp only [Prod.mk.injEq] at hrun
      obtain ⟨h1, rfl⟩ := hrun
      match r, h1 with
      | some none, _ => rfl
    obtain ⟨rc, _, _, hrecs⟩ := unregister_effect hC hun
    rw [hrecs]
    exact ⟨uniqueRemoteIds_removeById _ hU, noShared_removeById _ hN⟩
  | Add rc =>
    have hsv := hC.save rc s
    rcases hsr : a.Store.Save rc s with ⟨⟨saved, serr⟩, s1⟩
    rw [hsr] at hsv
    cases serr with
    | some e =>
      simp only [RegistryOp.run, AddRemoteCluster, hsr] at hrun
      split at hrun <;> simp at hrun
    | none =>
      simp [RegistryOp.run, AddRemoteCluster, hsr] at hrun
      subst hrun
      obtain ⟨saved0, _, hsaved, hfresh, hrecs⟩ := hsv rfl
      simp only at hrecs
      rw [hrecs]
      have hpid : saved0.PluginID = rc.PluginID := by rw [hsaved]
      refine ⟨uniqueRemoteIds_append hU hfresh, noShared_append hN ?_⟩
      rw [hpid]
      exact hside
  | Update rc =>
    have hup := hC.update rc s
    rcases hur : a.Store.Update rc s with ⟨⟨x, uerr⟩, s1⟩
    rw [hur] at hup
    cases uerr with
    | some e =>
      simp only [RegistryOp.run, UpdateRemoteCluster, hur] at hrun
      split at hrun <;> simp at hrun
    | none =>
      simp [RegistryOp.run, UpdateRemoteCluster, hur] at hrun
      subst hrun
      have hrecs := hup rfl
      simp only at hrecs
      rw [hrecs]
      constructor
      · unfold UniqueRemoteIds
        rw [replaceById_map_remoteId]
        exact hU
      · exact noShared_replaceById hU hN hside
  | Delete id =>
    have hd := hC.delete id s
    rcases hdr : a.Store.Delete id s with ⟨⟨deleted, derr⟩, s1⟩
    rw [hdr] at hd
    cases derr with
    | some e => simp [RegistryOp.run, DeleteRemoteCluster, hdr] at hrun
    | none =>
      simp [RegistryOp.run, DeleteRemoteCluster, hdr] at hrun
      subst hrun
      have hrecs := (hd rfl).1
      simp only at hrecs
      rw [hrecs]
      exact ⟨uniqueRemoteIds_removeById _ hU, noShared_removeById _ hN⟩
  | UpdateTopics id topics =>
    have ht := hC.updateTopics id topics s
    rcases htr : a.Store.UpdateTopics id topics s with ⟨⟨x, terr⟩, s1⟩
    rw [htr] at ht
    cases terr with
    | some e => simp [RegistryOp.run, UpdateRemoteClusterTopics, htr] at hrun
    | none =>
      simp [RegistryOp.run, UpdateRemoteClusterTopics, htr] at hrun
      subst hrun
      have hrecs := ht rfl
      simp only at hrecs
      rw [hrecs]
      apply inv_map_of_preserving _ _ hU hN
      · intro x; split <;> rfl
      · intro x; split <;> rfl
  | SetLastPingAt id =>
    have ht := hC.setLastPingAt id s
    rcases htr : a.Store.SetLastPingAt id s with ⟨perr, s1⟩
    rw [htr] at ht
    cases perr with
    | some e => simp [RegistryOp.run, SetRemoteClusterLastPingAt, htr] at hrun
    | none =>
      simp [RegistryOp.run, SetRemoteClusterLastPingAt, htr] at hrun
      subst hrun
      obtain ⟨t, hrecs⟩ := ht rfl
      simp only at hrecs
      rw [hrecs]
      apply inv_map_of_preserving _ _ hU hN
      · intro x; split <;> rfl
      · intro x; split <;> rfl

/-- The amended claim C6 on the in-memory store, at states that hold records.
Where `P1` is registered, `AddRemoteCluster` of a record with the plugin
identifier `P3`, which no record carries, succeeds and leaves two records,
`r` with `P1` and `rr` with `P3`. On these two records `UpdateRemoteCluster` of
the record `rr`, still with `P3`, succeeds, and so does a second registration
of `P1`. Every time `RemoteId` is still a key and no two records share a
non-empty `PluginID`. -/
theorem registry_keeps_plugin_ids_apart_witness :
    (UniqueRemoteIds memRegistered.records ∧ NoSharedPluginID memRegistered.records) ∧
    (RegistryOp.Add adminRecordC).keepsPluginIDsApart memRegistered.records ∧
    (RegistryOp.Add adminRecordC).run (memApp none) memRegistered = (true, memTwo) ∧
    memTwo.records.map (fun x => (x.RemoteId, x.PluginID)) = [("r", "P1"), ("rr", "P3")] ∧
    (UniqueRemoteIds memTwo.records ∧ NoSharedPluginID memTwo.records) ∧
    (RegistryOp.Update adminRecordCv2).keepsPluginIDsApart memTwo.records ∧
    (RegistryOp.Update adminRecordCv2).run (memApp none) memTwo = (true, memTwoUpdated) ∧
    memTwoUpdated.records.map (fun x => (x.RemoteId, x.PluginID, x.DisplayName)) =
      [("r", "P1", "Acme Bridge"), ("rr", "P3", "C v2")] ∧
    (UniqueRemoteIds memTwoUpdated.records ∧ NoSharedPluginID memTwoUpdated.records) ∧
    (RegistryOp.Register optsP1v2).run (memApp none) memTwoUpdated =
      (true, (RegisterPluginForSharedChannels (memApp none) optsP1v2 memTwoUpdated).2) ∧
    (RegisterPluginForSharedChannels (memApp none) optsP1v2 memTwoUpdated).2.records.map
      (fun x => (x.RemoteId, x.PluginID, x.DisplayName)) =
      [("r", "P1", "Acme Bridge v2"), ("rr", "P3", "C v2")] ∧
    (UniqueRemoteIds
        (RegisterPluginForSharedChannels (memApp none) optsP1v2 memTwoUpdated).2.records ∧
      NoSharedPluginID
        (RegisterPluginForSharedChannels (memApp none) optsP1v2 memTwoUpdated).2.records) :=
  ⟨⟨by decide, by decide⟩,
    Or.inr (by decide),
    by decide,
    by decide,
    registry_keeps_plugin_ids_apart (memApp none) MemState.records (memApp_contract none)
      (RegistryOp.Add adminRecordC) memRegistered memTwo (by decide) (by decide)
      (Or.inr (by decide)) (by decide),
    Or.inr (by decide),
    by decide,
    by decide,
    registry_keeps_plugin_ids_apart (memApp none) MemState.records (memApp_contract none)
      (RegistryOp.Update adminRecordCv2) memTwo memTwoUpdated (by decide) (by decide)
      (Or.inr (by decide)) (by decide),
    by decide,
    by decide,
    registry_keeps_plugin_ids_apart (memApp none) MemState.records (memApp_contract none)
      (RegistryOp.Register optsP1v2) memTwoUpdated
      (RegisterPluginForSharedChannels (memApp none) optsP1v2 memTwoUpdated).2
      (by decide) (by decide) trivial (by decide)⟩

/-- Claim C6 as stated fails. The in-memory store satisfies the store contract
and enforces uniqueness on `SiteURL` only; in the state after `P1` has
registered no two records share a non-empty `PluginID`; `AddRemoteCluster` of a
record with another site URL and the plugin identifier `P1` succeeds, and then
two records share `P1`. -/
theorem addRemoteCluster_duplicates_plugin_id :
    StoreContract (memApp none) MemState.records ∧
    UniqueRemoteIds memRegistered.records ∧ NoSharedPluginID memRegistered.records ∧
    ((RegistryOp.Add adminRecordA).run (memApp none) memRegistered).1 = true ∧
    ¬ NoSharedPluginID
      ((RegistryOp.Add adminRecordA).run (memApp none) memRegistered).2.records ∧
    pluginCount "P1"
      ((RegistryOp.Add adminRecordA).run (memApp none) memRegistered).2.records = 2 :=
  ⟨memApp_contract none, by decide, by decide, by decide, by decide, by decide⟩

/-- Claim C7. Error contract of the unregistration: when the lookup fails
(with not-found or anything else), `UnregisterPluginForSharedChannels` returns
exactly that error and the lookup is the only store call it makes; when the
lookup returns a record and no error, it calls the store's `Delete` once, with
the `RemoteId` of that record, after the lookup and nothing else, and returns
the structured failure `api.remote_cluster.delete.app_error` wrapping the store
error when `Delete` fails, and no error when it does not, whatever boolean
`Delete` reported. -/
theorem unregister_error_contract (a : App σ H) (pluginID : String) (s s1 : σ)
    (rc : Option RemoteCluster) (err : Option Error)
    (hlook : a.Store.GetByPluginID pluginID s = ((rc, err), s1)) :
    (∀ e, err = some e →
      UnregisterPluginForSharedChannels a.traced pluginID (s, []) =
        (some (some (GoError.raw e)), (s1, [Call.GetByPluginID pluginID]))) ∧
    (∀ found, err = none → rc = some found →
      (UnregisterPluginForSharedChannels a.traced pluginID (s, [])).2.2 =
        [Call.GetByPluginID pluginID, Call.Delete found.RemoteId] ∧
      (∀ deleted e s2, a.Store.Delete found.RemoteId s1 = ((deleted, some e), s2) →
        (UnregisterPluginForSharedChannels a.traced pluginID (s, [])).1 =
          some (some (GoError.app
            { Where := "DeleteRemoteCluster", Id := "api.remote_cluster.delete.app_error",
              DetailedError := "", StatusCode := 500, wrapped := some e }))) ∧
      (∀ deleted s2, a.Store.Delete found.RemoteId s1 = ((deleted, none), s2) →
        (UnregisterPluginForSharedChannels a.traced pluginID (s, [])).1 = some none)) := by
  refine ⟨?_, ?_⟩
  · rintro e rfl
    simp [UnregisterPluginForSharedChannels, App.traced, RemoteClusterStore.traced, hlook]
  · rintro found rfl rfl
    refine ⟨?_, ?_, ?_⟩
    · simp only [UnregisterPluginForSharedChannels, DeleteRemoteCluster, App.traced,
        RemoteClusterStore.traced, hlook]
      simp
      split <;> simp <;> split <;> simp_all
    · intro deleted e s2 hd
      simp [UnregisterPluginForSharedChannels, DeleteRemoteCluster, App.traced,
        RemoteClusterStore.traced, hlook, hd, NewAppError, AppError.Wrap,
        StatusInternalServerError]
    · intro deleted s2 hd
      simp [UnregisterPluginForSharedChannels, DeleteRemoteCluster, App.traced,
        RemoteClusterStore.traced, hlook, hd]

/-- Claim C7 on the in-memory store: unregistering `P1` on the empty store
returns the not-found error of the lookup and deletes nothing; unregistering
it where it is registered deletes the record `r` and returns no error. -/
theorem unregister_error_contract_witness :
    (memApp none).Store.GetByPluginID "P1" memEmpty = ((none, some memNotFound), memEmpty) ∧
    UnregisterPluginForSharedChannels (memApp none).traced "P1" (memEmpty, []) =
      (some (some (GoError.raw memNotFound)), (memEmpty, [Call.GetByPluginID "P1"])) ∧
    (memApp none).Store.GetByPluginID "P1" memRegistered =
      ((some registeredP1, none), memRegistered) ∧
    (UnregisterPluginForSharedChannels (memApp none).traced "P1" (memRegistered, [])).2.2 =
      [Call.GetByPluginID "P1", Call.Delete "r"] :=
  ⟨by decide,
    (unregister_error_contract (memApp none) "P1" memEmpty memEmpty none (some memNotFound)
      (by decide)).1 memNotFound rfl,
    by decide,
    ((unregister_error_contract (memApp none) "P1" memRegistered memRegistered
      (some registeredP1) none (by decide)).2 registeredP1 rfl rfl).1⟩

/-- Claim C8. Result of the deletion: when the store's `Delete` returns a
boolean and no error, `DeleteRemoteCluster` returns that boolean and no failure;
when it returns an error, `DeleteRemoteCluster` returns `false` and the failure
`api.remote_cluster.delete.app_error`, structured, with status 500 and wrapping
that error; and over a store that satisfies the store contract the
deletion of an identifier no record has, when the store reports no error,
returns `false` and no failure. -/
theorem deleteRemoteCluster_result (a : App σ H) (remoteClusterId : String) (s : σ) :
    (∀ deleted s1, a.Store.Delete remoteClusterId s = ((deleted, none), s1) →
      DeleteRemoteCluster a remoteClusterId s = ((deleted, none), s1)) ∧
    (∀ deleted e s1, a.Store.Delete remoteClusterId s = ((deleted, some e), s1) →
      DeleteRemoteCluster a remoteClusterId s =
        ((false, some
          { Where := "DeleteRemoteCluster", Id := "api.remote_cluster.delete.app_error",
            DetailedError := "", StatusCode := 500, wrapped := some e }), s1)) ∧
    (∀ recs : σ → List RemoteCluster, StoreContract a recs →
      (∀ x ∈ recs s, x.RemoteId ≠ remoteClusterId) →
      (a.Store.Delete remoteClusterId s).1.2 = none →
      (DeleteRemoteCluster a remoteClusterId s).1 = (false, none)) := by
  refine ⟨?_, ?_, ?_⟩
  · intro deleted s1 h
    simp [DeleteRemoteCluster, h]
  · intro deleted e s1 h
    simp [DeleteRemoteCluster, h, NewAppError, AppError.Wrap, StatusInternalServerError]
  · intro recs hC hno herr
    have hd := (hC.delete remoteClusterId s herr).2
    have hany : (recs s).any (fun x => decide (x.RemoteId = remoteClusterId)) = false := by
      rw [List.any_eq_false]
      intro x hx
      simpa using hno x hx
    rw [hany] at hd
    unfold DeleteRemoteCluster
    rcases hr : a.Store.Delete remoteClusterId s with ⟨⟨d, e⟩, s1⟩
    rw [hr] at hd herr
    simp at hd herr
    subst hd herr
    rfl

/-- Claim C8 on two stores: deleting an identifier that no record of the
in-memory store has returns `false` and no failure; over the broken store the
deletion returns `false` and the structured failure wrapping
`connectionLost`. -/
theorem deleteRemoteCluster_result_witness :
    (∀ x ∈ memRegistered.records, x.RemoteId ≠ "nobody") ∧
    ((memApp none).Store.Delete "nobody" memRegistered).1.2 = none ∧
    (DeleteRemoteCluster (memApp none) "nobody" memRegistered).1 = (false, none) ∧
    brokenApp.Store.Delete "r" memRegistered = ((false, some connectionLost), memRegistered) ∧
    DeleteRemoteCluster brokenApp "r" memRegistered =
      ((false, some
        { Where := "DeleteRemoteCluster", Id := "api.remote_cluster.delete.app_error",
          DetailedError := "", StatusCode := 500, wrapped := some connectionLost }),
        memRegistered) :=
  ⟨by decide, by decide,
    (deleteRemoteCluster_result (memApp none) "nobody" memRegistered).2.2 MemState.records
      (memApp_contract none) (by decide) (by decide),
    by decide,
    (deleteRemoteCluster_result brokenApp "r" memRegistered).2.1 false connectionLost
      memRegistered (by decide)⟩

/-- Claim C9. Service lookup: `GetRemoteClusterService` returns a failure if
and only if the service handle of the server is absent; then it returns no
handle and the structured failure
`api.remote_cluster.service_not_enabled.app_error` with status 501; otherwise
it returns exactly the handle of the server and no failure. -/
theorem getRemoteClusterService_spec (a : App σ H) (s : σ) :
    ((GetRemoteClusterService a s).2 ≠ none ↔ a.GetRemoteClusterService s = none) ∧
    (a.GetRemoteClusterService s = none →
      GetRemoteClusterService a s =
        (none, some
          { Where := "GetRemoteClusterService",
            Id := "api.remote_cluster.service_not_enabled.app_error",
            DetailedError := "", StatusCode := 501, wrapped := none })) ∧
    (∀ h, a.GetRemoteClusterService s = some h → GetRemoteClusterService a s = (some h, none)) := by
  refine ⟨?_, ?_, ?_⟩
  · cases h : a.GetRemoteClusterService s <;> simp [GetRemoteClusterService, h]
  · intro h
    simp [GetRemoteClusterService, h, NewAppError, StatusNotImplemented]
  · intro h hh
    simp [GetRemoteClusterService, hh]

/-- Claim C9 on the in-memory application: without a service the lookup
returns the not-enabled failure, with the service `sync` it returns `sync`. -/
theorem getRemoteClusterService_spec_witness :
    (memApp none).GetRemoteClusterService memEmpty = none ∧
    GetRemoteClusterService (memApp none) memEmpty =
      (none, some
        { Where := "GetRemoteClusterService",
          Id := "api.remote_cluster.service_not_enabled.app_error",
          DetailedError := "", StatusCode := 501, wrapped := none }) ∧
    (memApp (some "sync")).GetRemoteClusterService memEmpty = some "sync" ∧
    GetRemoteClusterService (memApp (some "sync")) memEmpty = (some "sync", none) :=
  ⟨rfl, (getRemoteClusterService_spec (memApp none) memEmpty).2.1 rfl, rfl,
    (getRemoteClusterService_spec (memApp (some "sync")) memEmpty).2.2 "sync" rfl⟩

/-- Claim C10, as amended. Unregister-then-get over a store that satisfies the
store contract: from a store state in which at most one record carries the
plugin identifier, when `UnregisterPluginForSharedChannels` returns no error
the lookup `GetByPluginID` of that identifier in the resulting state reports
not-found. -/
theorem unregister_then_lookup_not_found (a : App σ H) (recs : σ → List RemoteCluster)
    (hC : StoreContract a recs) (pluginID : String) (s s' : σ)
    (hone : pluginCount pluginID (recs s) ≤ 1)
    (hrun : UnregisterPluginForSharedChannels a pluginID s = (some none, s')) :
    ∃ e, (a.Store.GetByPluginID pluginID s').1 = (none, some e) ∧ errorsIsErrNoRows e = true := by
  obtain ⟨rc, hmem, hp, hrecs⟩ := unregister_effect hC hrun
  rcases hC.lookup pluginID s' with ⟨rc1, _, hmem1, hp1⟩ | ⟨e, h1, hnf, _⟩
  · exfalso
    rw [hrecs] at hmem1
    unfold removeById at hmem1
    rw [List.mem_filter] at hmem1
    obtain ⟨hin, hne⟩ := hmem1
    have := eq_of_pluginCount_le_one hone hin hmem hp1 hp
    subst this
    simp at hne
  · exact ⟨e, h1, hnf⟩

/-- The amended claim C10 on the in-memory store: `P1` is registered, is
unregistered, and the lookup then reports not-found. -/
theorem unregister_then_lookup_not_found_witness :
    pluginCount "P1" memRegistered.records ≤ 1 ∧
    UnregisterPluginForSharedChannels (memApp none) "P1" memRegistered =
      (some none, { memRegistered with records := [] }) ∧
    ∃ e, ((memApp none).Store.GetByPluginID "P1" { memRegistered with records := [] }).1 =
      (none, some e) ∧ errorsIsErrNoRows e = true :=
  ⟨by decide, by decide,
    unregister_then_lookup_not_found (memApp none) MemState.records (memApp_contract none) "P1"
      memRegistered { memRegistered with records := [] } (by decide) (by decide)⟩

/-- Claim C10 as stated fails. The in-memory store satisfies the store
contract; `AddRemoteCluster` has put two records with the plugin identifier
`P1` into it; `UnregisterPluginForSharedChannels` of `P1` returns no error, and
the lookup of `P1` in the resulting state returns the second record, not
not-found. -/
theorem unregister_leaves_second_record :
    StoreContract (memApp none) MemState.records ∧
    (UnregisterPluginForSharedChannels (memApp none) "P1" memTwoAdmin).1 = some none ∧
    ((memApp none).Store.GetByPluginID "P1"
      (UnregisterPluginForSharedChannels (memApp none) "P1" memTwoAdmin).2).1 =
      (some { adminRecordB with RemoteId := "rr" }, none) ∧
    ¬ ∃ e, ((memApp none).Store.GetByPluginID "P1"
      (UnregisterPluginForSharedChannels (memApp none) "P1" memTwoAdmin).2).1 =
      (none, some e) ∧ errorsIsErrNoRows e = true :=
  ⟨memApp_contract none, by decide, by decide, by
    rintro ⟨e, h, _⟩
    have h2 : ((memApp none).Store.GetByPluginID "P1"
        (UnregisterPluginForSharedChannels (memApp none) "P1" memTwoAdmin).2).1 =
        (some { adminRecordB with RemoteId := "rr" }, none) := by decide
    rw [h2] at h
    simp at h⟩

end Claims

end RemoteClusterApp
